import Mathlib

/-!
Shallow embedding of the connection-health core of the go-lynx RocketMQ
plugin (`health.go`): a `ConnectionManager` that periodically probes a list
of NameServer addresses over TCP, and a `HealthChecker` that periodically
derives a health verdict either from the manager's connectivity flag or
from an error-count heuristic, publishing to a metrics collaborator.

Time is modelled as `Nat` timestamps passed to each cycle; the network is
modelled as a reachability oracle `reach : String → Bool` (whether a TCP
dial to the address succeeds within the timeout); the Go goroutine/ticker
machinery is modelled by invoking the cycle bodies as explicit operations.
Channel closure of the one-shot `stopCh` tokens is a `stopped : Bool` flag.
-/

/-- Modelled from the spec: the `Metrics` sink type is a collaborator whose
source is not part of the reviewed core; §6 of the spec describes it as
fire-and-forget operations — increment reconnection count, increment
health-check-performed count, record last-health-check timestamp, set the
healthy/unhealthy gauge, increment health-check-error count. It is
modelled as plain counters, a gauge cell and a timestamp cell. -/
structure Metrics where
  reconnectionCount : Nat
  healthCheckCount : Nat
  healthCheckErrors : Nat
  healthyGauge : Option Bool
  lastHealthCheck : Option Nat
deriving DecidableEq, Repr

/-- Modelled from the spec: `IncrementReconnectionCount` on the sink. -/
def Metrics.incrementReconnectionCount (m : Metrics) : Metrics :=
  { m with reconnectionCount := m.reconnectionCount + 1 }

/-- Modelled from the spec: `IncrementHealthCheckCount` on the sink. -/
def Metrics.incrementHealthCheckCount (m : Metrics) : Metrics :=
  { m with healthCheckCount := m.healthCheckCount + 1 }

/-- Modelled from the spec: `IncrementHealthCheckErrors` on the sink. -/
def Metrics.incrementHealthCheckErrors (m : Metrics) : Metrics :=
  { m with healthCheckErrors := m.healthCheckErrors + 1 }

/-- Modelled from the spec: `SetHealthy` gauge on the sink. -/
def Metrics.setHealthy (m : Metrics) (b : Bool) : Metrics :=
  { m with healthyGauge := some b }

/-- Modelled from the spec: `UpdateLastHealthCheck` on the sink; the Go
method samples the clock itself, here the cycle's timestamp is passed. -/
def Metrics.updateLastHealthCheck (m : Metrics) (t : Nat) : Metrics :=
  { m with lastHealthCheck := some t }

/-- `ConnectionManager` state (health.go): the NameServer address list
(immutable after construction), the `connected` flag, and whether `stopCh`
has been closed. The `metrics` pointer and the owned `healthChecker` are
carried at the system level (`CMSys`) because they are shared. -/
structure ConnectionManager where
  nameServerAddrs : List String
  connected : Bool
  stopped : Bool
deriving DecidableEq, Repr

/-- `NewConnectionManager` (health.go): `connected` starts at the zero
value `false`, `stopCh` freshly open. -/
def NewConnectionManager (nameServerAddrs : List String) : ConnectionManager :=
  { nameServerAddrs := nameServerAddrs, connected := false, stopped := false }

/-- `IsConnected` (health.go): returns the connectivity flag. -/
def ConnectionManager.IsConnected (cm : ConnectionManager) : Bool :=
  cm.connected

/-- Result of iterating the dial loop of `checkConnection` over the address
list: the final success flag, the addresses actually dialed (in order), and
the addresses whose failure was logged at debug level. -/
structure DialResult where
  ok : Bool
  dialed : List String
  debugLogged : List String
deriving DecidableEq, Repr

/-- The `for _, addr := range cm.nameServerAddrs` loop of `checkConnection`
(health.go): dial each address in order; on the first success stop
(returning `true`); on failure log at debug level and continue; if the loop
falls through, the result is `false`. -/
def dialSequence (reach : String → Bool) : List String → DialResult
  | [] => { ok := false, dialed := [], debugLogged := [] }
  | a :: rest =>
    if reach a then
      { ok := true, dialed := [a], debugLogged := [] }
    else
      let r := dialSequence reach rest
      { ok := r.ok, dialed := a :: r.dialed, debugLogged := a :: r.debugLogged }

/-- Result of one probe cycle: the updated manager plus the observable dial
and debug-log traces. -/
structure ProbeResult where
  cm : ConnectionManager
  dialed : List String
  debugLogged : List String
deriving DecidableEq, Repr

/-- `checkConnection` (health.go): if the address list is empty, set
`connected = true` and return; otherwise run the dial loop and record its
outcome in `connected`. -/
def checkConnection (reach : String → Bool) (cm : ConnectionManager) : ProbeResult :=
  if cm.nameServerAddrs.length = 0 then
    { cm := { cm with connected := true }, dialed := [], debugLogged := [] }
  else
    let r := dialSequence reach cm.nameServerAddrs
    { cm := { cm with connected := r.ok }, dialed := r.dialed, debugLogged := r.debugLogged }

/-- `HealthChecker` state (health.go): verdict flag, last-check timestamp,
error count (int64), whether `stopCh` has been closed, and whether
`checkTicker` has been stopped. -/
structure HealthChecker where
  healthy : Bool
  lastCheck : Nat
  errorCount : Int
  stopped : Bool
  tickerStopped : Bool
deriving DecidableEq, Repr

/-- `NewHealthChecker` (health.go): `healthy` starts at the zero value
`false`, `errorCount` at 0, `lastCheck` at the construction time, token
open and ticker running. -/
def NewHealthChecker (now : Nat) : HealthChecker :=
  { healthy := false, lastCheck := now, errorCount := 0,
    stopped := false, tickerStopped := false }

/-- `IsHealthy` (health.go): returns the verdict flag. -/
def HealthChecker.IsHealthy (hc : HealthChecker) : Bool :=
  hc.healthy

/-- `GetLastCheck` (health.go): returns the last-check timestamp. -/
def HealthChecker.GetLastCheck (hc : HealthChecker) : Nat :=
  hc.lastCheck

/-- `GetErrorCount` (health.go): returns the error count. -/
def HealthChecker.GetErrorCount (hc : HealthChecker) : Int :=
  hc.errorCount

/-- `HealthChecker.Stop` (health.go): if `stopCh` is already closed, return
at once; otherwise close it and stop the ticker. -/
def HealthChecker.Stop (hc : HealthChecker) : HealthChecker :=
  if hc.stopped then hc
  else { hc with stopped := true, tickerStopped := true }

/-- Observable calls made by one `performHealthCheck` cycle, in program
order: metrics calls, the `lastCheck` store, and the warning log (which
carries the current error count and the connectivity flag). -/
inductive HCEvent where
  | incHealthCheckCount : HCEvent
  | setLastCheck : Nat → HCEvent
  | updateLastHealthCheck : HCEvent
  | setHealthyGauge : Bool → HCEvent
  | incHealthCheckErrors : HCEvent
  | warn : Int → Bool → HCEvent
deriving DecidableEq, Repr

/-- Recognises the error-counter increment event. -/
def HCEvent.isErrIncrEv : HCEvent → Bool
  | .incHealthCheckErrors => true
  | _ => false

/-- Recognises the healthy-gauge report event. -/
def HCEvent.isGaugeEv : HCEvent → Bool
  | .setHealthyGauge _ => true
  | _ => false

/-- Recognises the warning-log event. -/
def HCEvent.isWarnEv : HCEvent → Bool
  | .warn _ _ => true
  | _ => false

/-- The flag logged by the warning in `performHealthCheck` (health.go):
`hc.connMgr != nil && hc.connMgr.IsConnected()`. -/
def connectedFlag : Option ConnectionManager → Bool
  | some cm => cm.IsConnected
  | none => false

/-- Result of one health-check cycle: updated checker, updated metrics, and
the ordered trace of observable calls. -/
structure CheckResult where
  hc : HealthChecker
  metrics : Metrics
  events : List HCEvent
deriving Repr

/-- `performHealthCheck` (health.go): increment the health-check counter,
record the current time as `lastCheck` and report it; decide `healthy` —
from `connMgr.IsConnected()` if a manager is bound and has addresses,
otherwise `errorCount < 5`; report the gauge, and on an unhealthy verdict
additionally increment the error counter and log a warning with the error
count and the connectivity flag. -/
def performHealthCheck (now : Nat) (hc : HealthChecker)
    (connMgr : Option ConnectionManager) (m : Metrics) : CheckResult :=
  let m1 := m.incrementHealthCheckCount
  let hc1 : HealthChecker := { hc with lastCheck := now }
  let m2 := m1.updateLastHealthCheck now
  let healthy : Bool :=
    match connMgr with
    | some cm =>
      if cm.nameServerAddrs.length > 0 then cm.IsConnected
      else decide (hc1.errorCount < 5)
    | none => decide (hc1.errorCount < 5)
  let hc2 : HealthChecker := { hc1 with healthy := healthy }
  let m3 : Metrics :=
    if healthy then m2.setHealthy true
    else (m2.setHealthy false).incrementHealthCheckErrors
  let evs : List HCEvent :=
    if healthy then
      [.incHealthCheckCount, .setLastCheck now, .updateLastHealthCheck,
       .setHealthyGauge true]
    else
      [.incHealthCheckCount, .setLastCheck now, .updateLastHealthCheck,
       .setHealthyGauge false, .incHealthCheckErrors,
       .warn hc2.errorCount (connectedFlag connMgr)]
  { hc := hc2, metrics := m3, events := evs }

/-- The composite system as built by `NewConnectionManager` (health.go): the
manager, the `HealthChecker` it constructs and owns (whose `connMgr` points
back at the manager), and the shared metrics sink. -/
structure CMSys where
  cm : ConnectionManager
  hc : HealthChecker
  metrics : Metrics
deriving Repr

/-- `NewConnectionManager` together with the `NewHealthChecker` call it
makes (health.go). -/
def CMSys.new (m : Metrics) (nameServerAddrs : List String) (now : Nat) : CMSys :=
  { cm := NewConnectionManager nameServerAddrs, hc := NewHealthChecker now, metrics := m }

/-- `ForceReconnect` (health.go): set `connected = false` and increment the
reconnection counter on the metrics sink; no probe, nothing else touched. -/
def CMSys.ForceReconnect (s : CMSys) : CMSys :=
  { s with cm := { s.cm with connected := false },
           metrics := s.metrics.incrementReconnectionCount }

/-- `ConnectionManager.Stop` (health.go): if `stopCh` is already closed,
return at once; otherwise close it and stop the owned `HealthChecker`. -/
def CMSys.Stop (s : CMSys) : CMSys :=
  if s.cm.stopped then s
  else { s with cm := { s.cm with stopped := true }, hc := s.hc.Stop }

/-- One externally triggerable operation on the composite system. `Start`
calls only spawn the loops whose cycle bodies appear as `probe` and
`healthCheck`; accessors mutate nothing and need no constructor. Cycles
are not gated on the stop flags: cancellation is cooperative, so a cycle
racing a `Stop` may still run — the invariants below hold regardless. -/
inductive SysOp where
  | startCM : SysOp
  | startHC : SysOp
  | probe : (String → Bool) → SysOp
  | healthCheck : Nat → SysOp
  | forceReconnect : SysOp
  | stopCM : SysOp
  | stopHC : SysOp

/-- Effect of one operation on the composite system. -/
def CMSys.step (s : CMSys) : SysOp → CMSys
  | .startCM => s
  | .startHC => s
  | .probe reach => { s with cm := (checkConnection reach s.cm).cm }
  | .healthCheck now =>
    let r := performHealthCheck now s.hc (some s.cm) s.metrics
    { s with hc := r.hc, metrics := r.metrics }
  | .forceReconnect => s.ForceReconnect
  | .stopCM => s.Stop
  | .stopHC => { s with hc := s.hc.Stop }

/-- Run a sequence of operations from a given state. -/
def CMSys.runOps (s : CMSys) (ops : List SysOp) : CMSys :=
  ops.foldl CMSys.step s

/-! ## Concrete fixtures used by witnesses -/

/-- A concrete NameServer address. -/
def addrA : String := "10.0.0.1:9876"

/-- A second concrete NameServer address. -/
def addrB : String := "10.0.0.2:9876"

/-- A reachability oracle under which only `addrB` accepts connections. -/
def reachB : String → Bool := fun a => a == addrB

/-- A fresh metrics sink. -/
def mW : Metrics :=
  { reconnectionCount := 0, healthCheckCount := 0, healthCheckErrors := 0,
    healthyGauge := none, lastHealthCheck := none }

/-- A manager with two endpoints that currently reports connected. -/
def cmW : ConnectionManager :=
  { nameServerAddrs := [addrA, addrB], connected := true, stopped := false }

/-- A manager with two endpoints that currently reports disconnected. -/
def cmW2 : ConnectionManager :=
  { nameServerAddrs := [addrA, addrB], connected := false, stopped := false }

/-- A manager with an empty endpoint set, currently disconnected. -/
def cmE : ConnectionManager :=
  { nameServerAddrs := [], connected := false, stopped := false }

/-- A freshly constructed checker. -/
def hcW : HealthChecker := NewHealthChecker 0

/-- A checker whose error count has reached the threshold of 5. -/
def hcBad : HealthChecker := { NewHealthChecker 0 with errorCount := 5 }

/-- A freshly constructed composite system with one endpoint. -/
def sW : CMSys := CMSys.new mW [addrA] 0

/-! ## Helper lemmas -/

/-- The dial loop succeeds exactly when some address is reachable, dials the
failing head segment followed by the first reachable address when there is
one, and debug-logs exactly the failing head segment. -/
theorem dialSequence_spec (reach : String → Bool) (addrs : List String) :
    (dialSequence reach addrs).ok = addrs.any reach
    ∧ (dialSequence reach addrs).dialed =
        addrs.takeWhile (fun a => !reach a)
          ++ (addrs.dropWhile (fun a => !reach a)).take 1
    ∧ (dialSequence reach addrs).debugLogged =
        addrs.takeWhile (fun a => !reach a) := by
  induction addrs with
  | nil => exact ⟨rfl, rfl, rfl⟩
  | cons a rest ih =>
    cases h : reach a with
    | true =>
      simp [dialSequence, h, List.takeWhile_cons, List.dropWhile_cons]
    | false =>
      simp [dialSequence, h, List.takeWhile_cons, List.dropWhile_cons,
            ih.1, ih.2.1, ih.2.2]

/-- A health-check cycle never writes `errorCount`. -/
theorem performHealthCheck_errorCount (now : Nat) (hc : HealthChecker)
    (connMgr : Option ConnectionManager) (m : Metrics) :
    (performHealthCheck now hc connMgr m).hc.errorCount = hc.errorCount := rfl

/-- `HealthChecker.Stop` never writes `errorCount`. -/
theorem hcStop_errorCount (hc : HealthChecker) :
    hc.Stop.errorCount = hc.errorCount := by
  unfold HealthChecker.Stop
  split <;> rfl

/-- No system operation writes `errorCount`. -/
theorem step_errorCount (s : CMSys) (op : SysOp) :
    (s.step op).hc.errorCount = s.hc.errorCount := by
  cases op with
  | startCM => rfl
  | startHC => rfl
  | probe reach => rfl
  | healthCheck now => exact performHealthCheck_errorCount now s.hc (some s.cm) s.metrics
  | forceReconnect => rfl
  | stopCM =>
    show (s.Stop).hc.errorCount = s.hc.errorCount
    unfold CMSys.Stop
    split
    · rfl
    · exact hcStop_errorCount s.hc
  | stopHC => exact hcStop_errorCount s.hc

/-- `errorCount` is preserved by every operation sequence. -/
theorem runOps_errorCount (ops : List SysOp) (s : CMSys) :
    (s.runOps ops).hc.errorCount = s.hc.errorCount := by
  induction ops generalizing s with
  | nil => rfl
  | cons op rest ih =>
    show ((s.step op).runOps rest).hc.errorCount = s.hc.errorCount
    rw [ih (s.step op), step_errorCount]

/-- No system operation writes the NameServer address list. -/
theorem step_addrs (s : CMSys) (op : SysOp) :
    (s.step op).cm.nameServerAddrs = s.cm.nameServerAddrs := by
  cases op with
  | startCM => rfl
  | startHC => rfl
  | probe reach =>
    show (checkConnection reach s.cm).cm.nameServerAddrs = s.cm.nameServerAddrs
    unfold checkConnection
    split <;> rfl
  | healthCheck now => rfl
  | forceReconnect => rfl
  | stopCM =>
    show (s.Stop).cm.nameServerAddrs = s.cm.nameServerAddrs
    unfold CMSys.Stop
    split <;> rfl
  | stopHC => rfl

/-- The address list is preserved by every operation sequence. -/
theorem runOps_addrs (ops : List SysOp) (s : CMSys) :
    (s.runOps ops).cm.nameServerAddrs = s.cm.nameServerAddrs := by
  induction ops generalizing s with
  | nil => rfl
  | cons op rest ih =>
    show ((s.step op).runOps rest).cm.nameServerAddrs = s.cm.nameServerAddrs
    rw [ih (s.step op), step_addrs]

/-! ## Claims -/

/-- Claim C1: after a health-check cycle, when the checker is bound to a
ConnectionManager with a non-empty endpoint set, `IsHealthy` equals the
manager's `IsConnected`; otherwise (no manager, or an empty endpoint set)
`IsHealthy` is true exactly when `errorCount < 5` — for every manager state
(hence every sequence of connectivity transitions) and every error count. -/
theorem healthCheck_verdict (now : Nat) (hc : HealthChecker)
    (connMgr : Option ConnectionManager) (m : Metrics) :
    (∀ cm, connMgr = some cm → cm.nameServerAddrs ≠ [] →
      (performHealthCheck now hc connMgr m).hc.IsHealthy = cm.IsConnected)
    ∧ (connMgr = none →
      ((performHealthCheck now hc connMgr m).hc.IsHealthy = true ↔ hc.errorCount < 5))
    ∧ (∀ cm, connMgr = some cm → cm.nameServerAddrs = [] →
      ((performHealthCheck now hc connMgr m).hc.IsHealthy = true ↔ hc.errorCount < 5)) := by
  refine ⟨?_, ?_, ?_⟩
  · rintro cm rfl hne
    have hlen : cm.nameServerAddrs.length > 0 := List.length_pos.mpr hne
    simp [performHealthCheck, HealthChecker.IsHealthy, hlen]
  · rintro rfl
    simp [performHealthCheck, HealthChecker.IsHealthy]
  · rintro cm rfl he
    simp [performHealthCheck, HealthChecker.IsHealthy, he]

/-- Witness for C1: a connected two-endpoint manager yields the manager's
flag; an unbound checker at the threshold yields the heuristic verdict. -/
theorem healthCheck_verdict_witness :
    (performHealthCheck 3 hcW (some cmW) mW).hc.IsHealthy = cmW.IsConnected
    ∧ ((performHealthCheck 3 hcBad none mW).hc.IsHealthy = true ↔ hcBad.errorCount < 5) :=
  ⟨(healthCheck_verdict 3 hcW (some cmW) mW).1 cmW rfl (by decide),
   (healthCheck_verdict 3 hcBad none mW).2.1 rfl⟩

/-- Claim C2: on a non-empty endpoint set, one probe cycle dials the
endpoints in list order, sets `connected` true exactly when some endpoint's
dial succeeds, dials only the failing head segment plus the first success
(nothing after it), and debug-logs exactly the failures it dialed; if every
endpoint fails, `connected` is set false. -/
theorem checkConnection_probe (reach : String → Bool) (cm : ConnectionManager)
    (h : cm.nameServerAddrs ≠ []) :
    (checkConnection reach cm).cm.IsConnected = cm.nameServerAddrs.any reach
    ∧ (checkConnection reach cm).dialed =
        cm.nameServerAddrs.takeWhile (fun a => !reach a)
          ++ (cm.nameServerAddrs.dropWhile (fun a => !reach a)).take 1
    ∧ (checkConnection reach cm).debugLogged =
        cm.nameServerAddrs.takeWhile (fun a => !reach a) := by
  have hlen : ¬ cm.nameServerAddrs.length = 0 := by simpa using h
  obtain ⟨h1, h2, h3⟩ := dialSequence_spec reach cm.nameServerAddrs
  simp [checkConnection, hlen, ConnectionManager.IsConnected, h1, h2, h3]

/-- Witness for C2: two endpoints of which only the second is reachable. -/
theorem checkConnection_probe_witness :
    (checkConnection reachB cmW2).cm.IsConnected = cmW2.nameServerAddrs.any reachB
    ∧ (checkConnection reachB cmW2).dialed =
        cmW2.nameServerAddrs.takeWhile (fun a => !reachB a)
          ++ (cmW2.nameServerAddrs.dropWhile (fun a => !reachB a)).take 1
    ∧ (checkConnection reachB cmW2).debugLogged =
        cmW2.nameServerAddrs.takeWhile (fun a => !reachB a) :=
  checkConnection_probe reachB cmW2 (by decide)

/-- Claim C3: on an empty endpoint set, one probe cycle sets `connected`
true unconditionally (whatever its prior value) and dials nothing. -/
theorem checkConnection_emptySet (reach : String → Bool) (cm : ConnectionManager)
    (h : cm.nameServerAddrs = []) :
    (checkConnection reach cm).cm.IsConnected = true
    ∧ (checkConnection reach cm).dialed = []
    ∧ (checkConnection reach cm).debugLogged = [] := by
  simp [checkConnection, h, ConnectionManager.IsConnected]

/-- Witness for C3: an empty-endpoint manager that was disconnected. -/
theorem checkConnection_emptySet_witness :
    (checkConnection reachB cmE).cm.IsConnected = true
    ∧ (checkConnection reachB cmE).dialed = []
    ∧ (checkConnection reachB cmE).debugLogged = [] :=
  checkConnection_emptySet reachB cmE rfl

/-- One health-check cycle has exactly two shapes: a healthy cycle (gauge
set true, four events) or an unhealthy cycle (gauge set false, error
counter incremented, warning logged). -/
theorem performHealthCheck_shape (now : Nat) (hc : HealthChecker)
    (connMgr : Option ConnectionManager) (m : Metrics) :
    performHealthCheck now hc connMgr m =
      { hc := { hc with lastCheck := now, healthy := true },
        metrics := ((m.incrementHealthCheckCount).updateLastHealthCheck now).setHealthy true,
        events := [.incHealthCheckCount, .setLastCheck now, .updateLastHealthCheck,
                   .setHealthyGauge true] }
    ∨ performHealthCheck now hc connMgr m =
      { hc := { hc with lastCheck := now, healthy := false },
        metrics := ((((m.incrementHealthCheckCount).updateLastHealthCheck now).setHealthy
          false)).incrementHealthCheckErrors,
        events := [.incHealthCheckCount, .setLastCheck now, .updateLastHealthCheck,
                   .setHealthyGauge false, .incHealthCheckErrors,
                   .warn hc.errorCount (connectedFlag connMgr)] } := by
  unfold performHealthCheck
  rcases connMgr with _ | cm
  · rcases h : decide (hc.errorCount < 5) <;> simp [h]
  · by_cases hl : cm.nameServerAddrs.length > 0
    · rcases hcon : cm.IsConnected <;> simp [hl, hcon]
    · rcases h : decide (hc.errorCount < 5) <;> simp [hl, h]

/-- Claim C4: every health-check cycle reports the resulting verdict to the
metrics gauge; on an unhealthy verdict the error counter is incremented
exactly once and a warning carrying the current error count and the
connectivity flag is logged; on a healthy verdict the error counter is not
touched and no warning is logged. -/
theorem healthCheck_metrics_reporting (now : Nat) (hc : HealthChecker)
    (connMgr : Option ConnectionManager) (m : Metrics) :
    (performHealthCheck now hc connMgr m).metrics.healthyGauge =
      some (performHealthCheck now hc connMgr m).hc.healthy
    ∧ HCEvent.setHealthyGauge (performHealthCheck now hc connMgr m).hc.healthy
        ∈ (performHealthCheck now hc connMgr m).events
    ∧ (performHealthCheck now hc connMgr m).metrics.healthCheckErrors =
        m.healthCheckErrors +
          (if (performHealthCheck now hc connMgr m).hc.healthy then 0 else 1)
    ∧ (performHealthCheck now hc connMgr m).events.countP HCEvent.isErrIncrEv =
        (if (performHealthCheck now hc connMgr m).hc.healthy then 0 else 1)
    ∧ (performHealthCheck now hc connMgr m).events.countP HCEvent.isWarnEv =
        (if (performHealthCheck now hc connMgr m).hc.healthy then 0 else 1)
    ∧ ((performHealthCheck now hc connMgr m).hc.healthy = false →
        HCEvent.warn hc.errorCount (connectedFlag connMgr)
          ∈ (performHealthCheck now hc connMgr m).events) := by
  rcases performHealthCheck_shape now hc connMgr m with h | h <;> rw [h] <;>
    simp [List.countP_cons, List.countP_nil, HCEvent.isErrIncrEv, HCEvent.isWarnEv,
          Metrics.setHealthy, Metrics.incrementHealthCheckErrors,
          Metrics.updateLastHealthCheck, Metrics.incrementHealthCheckCount]

/-- Witness for C4: at the fallback threshold the cycle is unhealthy and the
warning carrying the error count and connectivity flag is in the trace. -/
theorem healthCheck_metrics_reporting_witness :
    HCEvent.warn hcBad.errorCount (connectedFlag none)
      ∈ (performHealthCheck 3 hcBad none mW).events :=
  (healthCheck_metrics_reporting 3 hcBad none mW).2.2.2.2.2 (by decide)

/-- Claim C5: `ForceReconnect` sets the connectivity flag to false and
increments the reconnection counter by exactly 1, from any prior state; it
performs no probe and leaves the endpoint list, stop token, health checker
and all other metrics fields untouched. -/
theorem forceReconnect_spec (s : CMSys) :
    s.ForceReconnect.cm.IsConnected = false
    ∧ s.ForceReconnect.metrics.reconnectionCount = s.metrics.reconnectionCount + 1
    ∧ s.ForceReconnect.cm.nameServerAddrs = s.cm.nameServerAddrs
    ∧ s.ForceReconnect.cm.stopped = s.cm.stopped
    ∧ s.ForceReconnect.hc = s.hc
    ∧ s.ForceReconnect.metrics.healthCheckCount = s.metrics.healthCheckCount
    ∧ s.ForceReconnect.metrics.healthCheckErrors = s.metrics.healthCheckErrors
    ∧ s.ForceReconnect.metrics.healthyGauge = s.metrics.healthyGauge
    ∧ s.ForceReconnect.metrics.lastHealthCheck = s.metrics.lastHealthCheck :=
  ⟨rfl, rfl, rfl, rfl, rfl, rfl, rfl, rfl, rfl⟩

/-- Claim C6: a second `Stop` on either component is a safe no-op — it
detects the closed token, changes nothing, and (being a total function)
neither errors nor panics, from every state of the first `Stop`. -/
theorem stop_double_noop (s : CMSys) (hc : HealthChecker) :
    s.Stop.Stop = s.Stop ∧ hc.Stop.Stop = hc.Stop := by
  constructor
  · by_cases h : s.cm.stopped <;> simp [CMSys.Stop, h]
  · by_cases h : hc.stopped <;> simp [HealthChecker.Stop, h]

/-- Claim C7: the first `ConnectionManager.Stop` closes the manager's token
and also stops the owned `HealthChecker` — its token is closed and its
ticker stopped — so both components end up stopped. (The hypothesis on the
checker records that a stopped checker always has its ticker stopped,
which holds in every reachable state.) -/
theorem stopCM_stops_healthChecker (s : CMSys) (h1 : s.cm.stopped = false)
    (h2 : s.hc.stopped = true → s.hc.tickerStopped = true) :
    s.Stop.cm.stopped = true ∧ s.Stop.hc.stopped = true
    ∧ s.Stop.hc.tickerStopped = true := by
  have hs : s.Stop = { s with cm := { s.cm with stopped := true }, hc := s.hc.Stop } := by
    simp [CMSys.Stop, h1]
  rw [hs]
  refine ⟨rfl, ?_, ?_⟩
  · by_cases h : s.hc.stopped <;> simp [HealthChecker.Stop, h]
  · by_cases h : s.hc.stopped
    · simpa [HealthChecker.Stop, h] using h2 (by simpa using h)
    · simp [HealthChecker.Stop, h]

/-- Witness for C7: stopping a freshly constructed system. -/
theorem stopCM_stops_healthChecker_witness :
    sW.Stop.cm.stopped = true ∧ sW.Stop.hc.stopped = true
    ∧ sW.Stop.hc.tickerStopped = true :=
  stopCM_stops_healthChecker sW rfl (by decide)

/-- Claim C8: every health-check cycle increments the performed counter by
exactly 1, records the cycle time as `lastCheck` (returned by
`GetLastCheck`) and reports it to the metrics sink — and in the call trace
these three bookkeeping effects precede the verdict report. -/
theorem healthCheck_bookkeeping (now : Nat) (hc : HealthChecker)
    (connMgr : Option ConnectionManager) (m : Metrics) :
    (performHealthCheck now hc connMgr m).metrics.healthCheckCount = m.healthCheckCount + 1
    ∧ (performHealthCheck now hc connMgr m).hc.GetLastCheck = now
    ∧ (performHealthCheck now hc connMgr m).metrics.lastHealthCheck = some now
    ∧ (performHealthCheck now hc connMgr m).events.take 3 =
        [HCEvent.incHealthCheckCount, HCEvent.setLastCheck now,
         HCEvent.updateLastHealthCheck]
    ∧ HCEvent.setHealthyGauge (performHealthCheck now hc connMgr m).hc.healthy
        ∈ (performHealthCheck now hc connMgr m).events.drop 3 := by
  rcases performHealthCheck_shape now hc connMgr m with h | h <;> rw [h] <;>
    simp [HealthChecker.GetLastCheck, Metrics.setHealthy,
          Metrics.incrementHealthCheckErrors, Metrics.updateLastHealthCheck,
          Metrics.incrementHealthCheckCount]

/-- Claim C9: no operation of the reviewed core writes `errorCount`: it is
0 at construction and stays 0 across every sequence of starts, stops, probe
cycles, check cycles and forced reconnections, so `GetErrorCount` always
returns 0 and the fallback branch always yields a healthy verdict (shown by
appending one check cycle on an endpoint-free system). -/
theorem errorCount_never_mutated (m : Metrics) (addrs : List String) (now t : Nat)
    (ops : List SysOp) :
    (CMSys.runOps (CMSys.new m addrs now) ops).hc.errorCount = 0
    ∧ (CMSys.runOps (CMSys.new m addrs now) ops).hc.GetErrorCount = 0
    ∧ (CMSys.runOps (CMSys.new m ([] : List String) now)
        (ops ++ [SysOp.healthCheck t])).hc.healthy = true := by
  refine ⟨?_, ?_, ?_⟩
  · rw [runOps_errorCount]; rfl
  · show (CMSys.runOps (CMSys.new m addrs now) ops).hc.errorCount = 0
    rw [runOps_errorCount]; rfl
  · have hsplit : CMSys.runOps (CMSys.new m ([] : List String) now)
        (ops ++ [SysOp.healthCheck t])
        = (CMSys.runOps (CMSys.new m ([] : List String) now) ops).step
            (SysOp.healthCheck t) := by
      unfold CMSys.runOps
      rw [List.foldl_append]
      rfl
    rw [hsplit]
    have he : (CMSys.runOps (CMSys.new m ([] : List String) now) ops).hc.errorCount = 0 := by
      rw [runOps_errorCount]; rfl
    have ha : (CMSys.runOps (CMSys.new m ([] : List String) now) ops).cm.nameServerAddrs
        = [] := by
      rw [runOps_addrs]; rfl
    show (performHealthCheck t (CMSys.runOps (CMSys.new m ([] : List String) now) ops).hc
      (some (CMSys.runOps (CMSys.new m ([] : List String) now) ops).cm)
      (CMSys.runOps (CMSys.new m ([] : List String) now) ops).metrics).hc.healthy = true
    simp [performHealthCheck, ha, he]

/-- Claim C10: immediately after construction, before any cycle has run,
`IsConnected` and `IsHealthy` are both false — even though the fallback
heuristic (errorCount 0 < 5) would deem the fresh checker healthy, as the
first fallback check cycle indeed does. -/
theorem new_initial_flags (m : Metrics) (addrs : List String) (now t : Nat) :
    (CMSys.new m addrs now).cm.IsConnected = false
    ∧ (CMSys.new m addrs now).hc.IsHealthy = false
    ∧ (performHealthCheck t (CMSys.new m addrs now).hc none m).hc.IsHealthy = true := by
  refine ⟨rfl, rfl, ?_⟩
  simp [CMSys.new, NewHealthChecker, performHealthCheck, HealthChecker.IsHealthy]
